import Mathlib

/-!
Shallow embedding of the chat-orchestration core of the portfolio backend:
the ChatHandler turn policy (services/chat/chat_handler.py), its prompt
and limit constants (services/chat/config.py), the vector-search
post-processing of MilvusDB.search (vdb/milvus_connector.py), the
embedding text normalisation (services/embeddor/embeddings.py), and the
MessageDTO pydantic schema (web/api/message/schema.py).

External collaborators (the OpenAI embedding call, the Milvus client search
call, and the LLM completion call) are modelled as an oracle record
ChatServices; handle_chat additionally returns the ordered list of
external calls it makes, so that call-count properties are statable.
Distances and the distance threshold are modelled as rationals; message
identifiers and timestamps are opaque payload fields.
-/

namespace PortfolioBackend

/-! ## Constants from services/chat/config.py -/

/-- Embeds `prompt.format(context=...)` from config.py: the system prompt
template with the retrieved context interpolated.  The Python source is a
triple-quoted string with backslash line continuations. -/
def prompt (context : String) : String :=
  "Your task is to engage in this conversation. Answer the questions strictly based on the provided context and the current conversation. Your answers must be as short as possible.\nFor off-topic, offensive messages or irrelevant questions, reply with: \"Null\".\n\nContext: " ++ context

/-- Embeds `off_topic_response.format(off_topic_count=...)` from config.py. -/
def off_topic_response (off_topic_count : Nat) : String :=
  "It is whether your message is off-topic or I do not have enough information to answer it.\nYou have sent " ++ toString off_topic_count ++ " out of 3 off-topic messages. After the 3rd instance, this chat will be terminated.\n\nIf you think this is a mistake, please rephrase your question and ask it again."

/-- Embeds `limit_out_of_topic_message` from config.py. -/
def limit_out_of_topic_message : String :=
  "You reached 3 out of topic messages. This chat is terminated."

/-- Embeds `limit_length_message` from config.py. -/
def limit_length_message : String :=
  "You reached the length limit for a single conversation. This conversation has been terminated."

/-- Embeds `messages_limit` from config.py. -/
def messages_limit : Nat := 30

/-- Embeds `off_topic_count_limit` from config.py. -/
def off_topic_count_limit : Nat := 3

/-! ## Constants from vdb/configs.py (VDBConfig) -/

/-- Embeds `vdb_config.topk` from configs.py. -/
def vdb_topk : Nat := 5

/-- Embeds `vdb_config.threshold` from configs.py. -/
def vdb_threshold : Rat := 1.7

/-- Embeds `vdb_config.collection_name` from configs.py. -/
def vdb_collection_name : String := "portfolio_data"

/-! ## MessageDTO (web/api/message/schema.py)

The Python MessageBy is a str enum, so an origin tag compares as its string
value and, at the defensive check in `_format_message`, arbitrary strings
are conceivable; the tag is therefore modelled as a String. -/

namespace MessageBy

/-- Embeds `MessageBy.HUMAN`, the string "human". -/
def HUMAN : String := "human"

/-- Embeds `MessageBy.AI`, the string "ai". -/
def AI : String := "ai"

/-- Embeds `MessageBy.SYSTEM`, the string "system". -/
def SYSTEM : String := "system"

end MessageBy

/-- Embeds the MessageDTO pydantic model; identifier and timestamp fields
are opaque payload here. -/
structure MessageDTO where
  message_id : String
  chat_id : String
  message_text : String
  message_by : String
  created_at : Nat
deriving Repr, DecidableEq

/-! ## langchain message objects built by `_format_message` -/

/-- The three langchain message classes the handler constructs, which are
the generation role representations (HumanMessage carries the user role,
AIMessage the assistant role, SystemMessage the system role), each with its
content. -/
inductive BaseMessage where
  | humanMessage (content : String)
  | aiMessage (content : String)
  | systemMessage (content : String)
deriving Repr, DecidableEq

/-! ## Vector-search post-processing (MilvusDB.search) -/

/-- One raw hit returned by the Milvus client: its distance and the
entity text output field. -/
structure Hit where
  distance : Rat
  text : String
deriving Repr, DecidableEq

/-- The sort key relation of `sorted(query_result[0], key=lambda x: x["distance"])`. -/
def hitLe (a b : Hit) : Prop := a.distance ≤ b.distance

instance : DecidableRel hitLe := fun a b => inferInstanceAs (Decidable (a.distance ≤ b.distance))

instance : IsTotal Hit hitLe := ⟨fun a b => le_total a.distance b.distance⟩

instance : IsTrans Hit hitLe := ⟨fun _ _ _ h h2 => le_trans h h2⟩

/-- The pure tail of MilvusDB.search: Python sorted is the stable ascending
sort by the distance key (insertion sort is stable, hence has the same
semantics), then the result string is accumulated over the sorted hits,
appending the text plus a newline for each hit whose distance is strictly
below the threshold. -/
def MilvusDB.search_result (hits : List Hit) (threshold : Rat) : String :=
  let sorted_query_results := List.insertionSort hitLe hits
  sorted_query_results.foldl
    (fun result hit => if hit.distance < threshold then result ++ hit.text ++ "\n" else result) ""

/-- Stated from the specification text, to be compared with
MilvusDB.search_result: sort the hits ascending by distance, keep only
those with distance strictly below the threshold, and concatenate the
surviving texts, each followed by a newline. -/
def search_result_specification (hits : List Hit) (threshold : Rat) : String :=
  String.join (((List.insertionSort hitLe hits).filter fun h => decide (h.distance < threshold)).map
    fun h => h.text ++ "\n")

/-! ## Embedding text normalisation (Embedding instance attribute text) -/

/-- Embeds `self.text = text.replace("\n", " ")` from embeddings.py: the
pattern is the single newline character, so the Python replace is exactly
the character map sending each newline to a space and leaving every other
character unchanged. -/
def Embedding.text (input : String) : String :=
  String.mk (input.data.map fun c => if c = '\n' then ' ' else c)

/-! ## Refusal detection (the expression `"null" in ai_message.lower()`) -/

/-- Embeds Python str.lower (character-wise lowering; ASCII case suffices
for the sentinel check). -/
def pyLower (s : String) : String := String.mk (s.data.map Char.toLower)

/-- Substring containment on character lists, i.e. Python needle-in-hay. -/
def listContainsSub (needle : List Char) : List Char → Bool
  | [] => needle.isEmpty
  | c :: rest => needle.isPrefixOf (c :: rest) || listContainsSub needle rest

/-- The refusal test `"null" in ai_message.lower()` from handle_chat. -/
def containsNullCI (s : String) : Bool := listContainsSub "null".data (pyLower s).data

/-! ## ChatHandler -/

/-- Embeds `ChatHandler._format_message`: maps an origin tag to the
generation role representation; unknown tags raise ValueError (modelled as
Except.error). -/
def ChatHandler.format_message (message : MessageDTO) : Except String BaseMessage :=
  if message.message_by = MessageBy.HUMAN then Except.ok (BaseMessage.humanMessage message.message_text)
  else if message.message_by = MessageBy.AI then Except.ok (BaseMessage.aiMessage message.message_text)
  else if message.message_by = MessageBy.SYSTEM then Except.ok (BaseMessage.systemMessage message.message_text)
  else Except.error ("Unexpected message_by value: " ++ message.message_by)

/-- The formatting loop of `_update_conversation`: formats each message in
order, propagating the first error (the Python loop raises there). -/
def ChatHandler.format_conversation : List MessageDTO → Except String (List BaseMessage)
  | [] => Except.ok []
  | m :: rest =>
    match ChatHandler.format_message m with
    | Except.error e => Except.error e
    | Except.ok b =>
      match ChatHandler.format_conversation rest with
      | Except.error e => Except.error e
      | Except.ok bs => Except.ok (b :: bs)

/-- Embeds `ChatHandler._update_conversation`: appends the human query to
the old conversation, formats every message by role, then appends a
SystemMessage carrying the freshly built system prompt as the final
element. -/
def ChatHandler.update_conversation (old_conversation : List MessageDTO)
    (human_query : MessageDTO) (system_message : String) :
    Except String (List BaseMessage) :=
  match ChatHandler.format_conversation (old_conversation ++ [human_query]) with
  | Except.error e => Except.error e
  | Except.ok formatted => Except.ok (formatted ++ [BaseMessage.systemMessage system_message])

/-- The three external collaborators of the handler, as an oracle:
embed_query (OpenAI embedding of the normalised text), client_search
(the Milvus client raw search, returning scored hits), invoke (the LLM
completion over the formatted conversation).  Vec is the opaque embedding
vector type. -/
structure ChatServices (Vec : Type) where
  embed_query : String → Vec
  client_search : Vec → List Hit
  invoke : List BaseMessage → String

/-- One external call made by the handler, in order of occurrence. -/
inductive CallEvent (Vec : Type) where
  | embedCall (text : String)
  | searchCall (collection_name : String) (data : Vec) (limit : Nat) (threshold : Rat)
  | generateCall (messages : List BaseMessage)
deriving DecidableEq

/-- The dictionary returned by handle_chat. -/
structure ChatResult where
  system_message : Option String
  ai_message : String
  off_topic_response_count : Nat
deriving Repr, DecidableEq

/-- The system prompt built on the retrieve-and-generate path: the context
string assembled by MilvusDB.search over the embedding of the normalised
human text, interpolated into the prompt template. -/
def ChatHandler.rag_system_message {Vec : Type} (svc : ChatServices Vec)
    (human_message : MessageDTO) : String :=
  prompt (MilvusDB.search_result
    (svc.client_search (svc.embed_query (Embedding.text human_message.message_text)))
    vdb_threshold)

/-- Embeds `ChatHandler.handle_chat`: the per-turn orchestration policy,
returning the result dictionary together with the trace of external calls
made.  Branches, in source order: length limit exceeded;
retrieve-and-generate when the off-topic count is below the limit;
otherwise off-topic exhausted. -/
def ChatHandler.handle_chat {Vec : Type} (svc : ChatServices Vec)
    (conversation : List MessageDTO) (human_message : MessageDTO)
    (off_topic_response_count : Nat) :
    Except String ChatResult × List (CallEvent Vec) :=
  if conversation.length > messages_limit then
    (Except.ok { system_message := none, ai_message := limit_length_message,
                 off_topic_response_count := off_topic_response_count }, [])
  else if off_topic_response_count < off_topic_count_limit then
    let query_embedding_text := Embedding.text human_message.message_text
    let query_vector := svc.embed_query query_embedding_text
    let raw_hits := svc.client_search query_vector
    let query_result := MilvusDB.search_result raw_hits vdb_threshold
    let system_message := prompt query_result
    let calls := [CallEvent.embedCall query_embedding_text,
                  CallEvent.searchCall vdb_collection_name query_vector vdb_topk vdb_threshold]
    match ChatHandler.update_conversation conversation human_message system_message with
    | Except.error e => (Except.error e, calls)
    | Except.ok formatted_conversation =>
      let ai_message := svc.invoke formatted_conversation
      let calls := calls ++ [CallEvent.generateCall formatted_conversation]
      if containsNullCI ai_message then
        let new_count := off_topic_response_count + 1
        (Except.ok { system_message := some system_message,
                     ai_message := off_topic_response new_count,
                     off_topic_response_count := new_count }, calls)
      else
        (Except.ok { system_message := some system_message, ai_message := ai_message,
                     off_topic_response_count := off_topic_response_count }, calls)
  else
    (Except.ok { system_message := none, ai_message := limit_out_of_topic_message,
                 off_topic_response_count := off_topic_response_count }, [])

/-! ## Role parsing direction

Modelled from the spec: section 4.2 requires the role mapping to be
invertible (human maps to the user role and back, ai to the assistant role,
system to the system role).  The parse direction (role representation back
to origin tag) lives in the generation client library, not in src, so it is
written here from the specification words. -/

/-- Modelled from the spec: the inverse of the role mapping, recovering the
origin tag from the generation role representation. -/
def parse_message_by : BaseMessage → String
  | BaseMessage.humanMessage _ => MessageBy.HUMAN
  | BaseMessage.aiMessage _ => MessageBy.AI
  | BaseMessage.systemMessage _ => MessageBy.SYSTEM

/-! ## MessageDTO pydantic validation (web/api/message/schema.py) -/

/-- Word characters of the regex word boundary, ASCII fragment: letters,
digits and underscore. -/
def isWordChar (c : Char) : Bool := c.isAlphanum || c = '_'

/-- The replacement applied to one maximal word run by
`re.sub(r"\b(he|him|his)\b", lambda ...)`: the whole words he and him
become Hani, the whole word his becomes Hani\x27s, all other words are
kept. -/
def substPronounWord (w : List Char) : List Char :=
  if w = "he".data ∨ w = "him".data then "Hani".data
  else if w = "his".data then "Hani\x27s".data
  else w

/-- Embeds the `re.sub` call of the validator: scan the text, accumulate
maximal word runs, and substitute each complete run via substPronounWord;
non-word characters are boundaries and pass through unchanged. -/
def pyReSubPronouns (s : String) : String :=
  let fin := s.data.foldl
    (fun (st : List Char × List Char) (c : Char) =>
      if isWordChar c then (st.1, st.2 ++ [c])
      else (st.1 ++ substPronounWord st.2 ++ [c], []))
    ([], [])
  String.mk (fin.1 ++ substPronounWord fin.2)

/-- The pydantic ValidationInfo data visible to a field validator: the
fields validated so far.  Only message_by is consulted by the validator. -/
structure FieldsData where
  message_by : Option String

/-- Embeds the `replace_pronouns` field validator on message_text: when the
already-validated data holds message_by equal to "human", apply the pronoun
substitution, otherwise return the value unchanged. -/
def MessageDTO.replace_pronouns (v : String) (values : FieldsData) : String :=
  if values.message_by = some "human" then pyReSubPronouns v else v

/-- Embeds pydantic model construction for MessageDTO: field validators run
in field declaration order (message_id, chat_id, message_text, message_by,
created_at), and each validator sees only the previously validated fields.
Because message_by is declared after message_text, the data passed to the
message_text validator never contains message_by. -/
def MessageDTO.model_validate (message_id chat_id message_text message_by : String)
    (created_at : Nat) : MessageDTO :=
  let values_at_message_text : FieldsData := { message_by := none }
  { message_id := message_id, chat_id := chat_id,
    message_text := MessageDTO.replace_pronouns message_text values_at_message_text,
    message_by := message_by, created_at := created_at }

/-! ## Witness fixtures: concrete messages and oracle instantiations -/

/-- A concrete human message used by witnesses. -/
def witness_human_message : MessageDTO :=
  { message_id := "mid", chat_id := "cid", message_text := "hi", message_by := "human",
    created_at := 0 }

/-- A concrete human message with empty text, used by witnesses. -/
def witness_empty_message : MessageDTO :=
  { message_id := "mid", chat_id := "cid", message_text := "", message_by := "human",
    created_at := 0 }

/-- A concrete message with an unknown origin tag, used by witnesses. -/
def witness_robot_message : MessageDTO :=
  { message_id := "mid", chat_id := "cid", message_text := "x", message_by := "robot",
    created_at := 0 }

/-- Oracle whose generation always returns the sentinel. -/
def refusal_services : ChatServices Unit :=
  { embed_query := fun _ => (), client_search := fun _ => [], invoke := fun _ => "Null" }

/-- Oracle whose generation always returns the empty string. -/
def empty_output_services : ChatServices Unit :=
  { embed_query := fun _ => (), client_search := fun _ => [], invoke := fun _ => "" }

/-- The formatted conversation the refusal oracle produces for a single
human "hi" turn with no history. -/
def witness_refusal_formatted : List BaseMessage :=
  [BaseMessage.humanMessage "hi",
   BaseMessage.systemMessage (ChatHandler.rag_system_message refusal_services witness_human_message)]

/-- The formatted conversation the empty-output oracle produces for a
single human "hi" turn with no history. -/
def witness_pass_formatted : List BaseMessage :=
  [BaseMessage.humanMessage "hi",
   BaseMessage.systemMessage (ChatHandler.rag_system_message empty_output_services witness_human_message)]

/-- The handler result for the refusal witness run. -/
def witness_refusal_result : ChatResult :=
  { system_message := some (ChatHandler.rag_system_message refusal_services witness_human_message),
    ai_message := off_topic_response 1, off_topic_response_count := 1 }

/-- The call trace for the refusal witness run. -/
def witness_refusal_trace : List (CallEvent Unit) :=
  [CallEvent.embedCall (Embedding.text witness_human_message.message_text),
   CallEvent.searchCall vdb_collection_name () vdb_topk vdb_threshold,
   CallEvent.generateCall witness_refusal_formatted]

/-- The ten decimal digit characters, the alphabet of Nat.repr. -/
def decimalDigits : List Char := ['0', '1', '2', '3', '4', '5', '6', '7', '8', '9']

/-! ## Helper lemmas: substring occurrences -/

theorem listContainsSub_iff (n : List Char) : ∀ s : List Char,
    listContainsSub n s = true ↔ ∃ pre post, s = pre ++ n ++ post
  | [] => by
    simp only [listContainsSub, List.isEmpty_iff]
    constructor
    · rintro rfl
      exact ⟨[], [], rfl⟩
    · rintro ⟨pre, post, h⟩
      have hl := congrArg List.length h
      simp only [List.length_nil, List.length_append] at hl
      have : n.length = 0 := by omega
      exact List.eq_nil_of_length_eq_zero this
  | c :: rest => by
    simp only [listContainsSub, Bool.or_eq_true, List.isPrefixOf_iff_prefix,
      listContainsSub_iff n rest]
    constructor
    · rintro (⟨t, ht⟩ | ⟨pre, post, h⟩)
      · exact ⟨[], t, by simp [ht]⟩
      · exact ⟨c :: pre, post, by simp [h]⟩
    · rintro ⟨pre, post, h⟩
      cases pre with
      | nil =>
        exact Or.inl ⟨post, by simpa using h.symm⟩
      | cons c2 pre2 =>
        simp only [List.cons_append] at h
        cases h
        exact Or.inr ⟨pre2, post, rfl⟩

theorem contains_append_split (n x y : List Char)
    (h : listContainsSub n (x ++ y) = true) :
    listContainsSub n x = true ∨ listContainsSub n y = true ∨
      ∃ n1 n2, n = n1 ++ n2 ∧ n1 ≠ [] ∧ n2 ≠ [] ∧ n1 <:+ x ∧ n2 <+: y := by
  rw [listContainsSub_iff] at h
  obtain ⟨pre, post, h⟩ := h
  rw [show pre ++ n ++ post = (pre ++ n) ++ post by simp] at h
  rcases List.append_eq_append_iff.mp h.symm with ⟨a2, hx, _⟩ | ⟨c2, hpn, hy⟩
  · left
    rw [listContainsSub_iff]
    exact ⟨pre, a2, by simp [hx]⟩
  · rcases List.append_eq_append_iff.mp hpn.symm with ⟨a2, hpre, hc2⟩ | ⟨c2b, hx2, hn⟩
    · right; left
      rw [listContainsSub_iff]
      exact ⟨a2, post, by simp [hy, hc2]⟩
    · cases c2b with
      | nil =>
        right; left
        rw [listContainsSub_iff]
        refine ⟨[], post, ?_⟩
        simp only [List.nil_append] at hn ⊢
        rw [hy, ← hn]
      | cons a a2t =>
        cases c2 with
        | nil =>
          left
          rw [listContainsSub_iff]
          exact ⟨pre, [], by rw [hx2, hn]; simp⟩
        | cons cc c2t =>
          right; right
          exact ⟨a :: a2t, cc :: c2t, hn, by simp, by simp, ⟨pre, hx2.symm⟩, ⟨post, hy.symm⟩⟩

/-! ## Helper lemmas: the decimal digits of a rendered counter -/

theorem digitChar_mem_decimalDigits (m : Nat) (h : m < 10) : Nat.digitChar m ∈ decimalDigits := by
  interval_cases m <;> decide

theorem toDigitsCore_mem (b : Nat) (hb : b = 10) : ∀ (f n : Nat) (acc : List Char),
    ∀ c ∈ Nat.toDigitsCore b f n acc, c ∈ acc ∨ c ∈ decimalDigits
  | 0, n, acc => fun c hc => Or.inl hc
  | f + 1, n, acc => by
    intro c hc
    simp only [Nat.toDigitsCore] at hc
    by_cases h0 : n / b = 0
    · rw [if_pos h0] at hc
      rcases List.mem_cons.mp hc with hd | ha
      · subst hd hb
        exact Or.inr (digitChar_mem_decimalDigits _ (Nat.mod_lt _ (by omega)))
      · exact Or.inl ha
    · rw [if_neg h0] at hc
      rcases toDigitsCore_mem b hb f (n / b) (Nat.digitChar (n % b) :: acc) c hc with hm | hm
      · rcases List.mem_cons.mp hm with hd | ha
        · subst hd hb
          exact Or.inr (digitChar_mem_decimalDigits _ (Nat.mod_lt _ (by omega)))
        · exact Or.inl ha
      · exact Or.inr hm

theorem repr_chars_mem (k : Nat) : ∀ c ∈ (Nat.repr k).data, c ∈ decimalDigits := by
  intro c hc
  have hdata : (Nat.repr k).data = Nat.toDigitsCore 10 (k + 1) k [] := rfl
  rw [hdata] at hc
  rcases toDigitsCore_mem 10 rfl (k + 1) k [] c hc with hm | hm
  · simp at hm
  · exact hm

theorem toDigitsCore_ne_nil (b : Nat) : ∀ (f n : Nat) (acc : List Char), acc ≠ [] →
    Nat.toDigitsCore b f n acc ≠ []
  | 0, n, acc => fun h => h
  | f + 1, n, acc => by
    intro h
    simp only [Nat.toDigitsCore]
    by_cases h0 : n / b = 0
    · rw [if_pos h0]
      simp
    · rw [if_neg h0]
      exact toDigitsCore_ne_nil b f (n / b) _ (by simp)

theorem repr_data_ne_nil (k : Nat) : (Nat.repr k).data ≠ [] := by
  have hdata : (Nat.repr k).data = Nat.toDigitsCore 10 (k + 1) k [] := rfl
  rw [hdata]
  simp only [Nat.toDigitsCore]
  by_cases h0 : k / 10 = 0
  · rw [if_pos h0]
    simp
  · rw [if_neg h0]
    exact toDigitsCore_ne_nil 10 k (k / 10) _ (by simp)

theorem toLower_decimal (c : Char) (h : c ∈ decimalDigits) : c.toLower = c := by
  fin_cases h <;> decide

theorem mem_digits_of_mem_mapD (k : Nat) (c : Char)
    (h : c ∈ (Nat.repr k).data.map Char.toLower) : c ∈ decimalDigits := by
  obtain ⟨d, hd, rfl⟩ := List.mem_map.mp h
  have hdd := repr_chars_mem k d hd
  rw [toLower_decimal d hdd]
  exact hdd

theorem head_mem_of_leading {c : Char} {t l : List Char} (h : (c :: t) <+: l) : c ∈ l := by
  obtain ⟨post, hp⟩ := h
  rw [← hp]
  exact List.mem_cons_self c _

theorem null_digit_absurd (c : Char) (h1 : c ∈ (['n', 'u', 'l', 'l'] : List Char))
    (h2 : c ∈ decimalDigits) : False := by
  fin_cases h2 <;> simp_all [decimalDigits]

/-- The templated off-topic warning never contains the sentinel, whatever
counter value is interpolated: the fixed parts are sentinel-free and the
interpolated part consists of decimal digits only. -/
theorem containsNullCI_off_topic_response (k : Nat) :
    containsNullCI (off_topic_response k) = false := by
  by_contra hcon
  rw [Bool.not_eq_false] at hcon
  unfold containsNullCI pyLower off_topic_response at hcon
  have htos : toString k = Nat.repr k := rfl
  rw [htos] at hcon
  simp only [String.data_append, List.map_append, List.append_assoc] at hcon
  have hDne : (Nat.repr k).data.map Char.toLower ≠ [] := by
    simp [repr_data_ne_nil k]
  rcases contains_append_split _ _ _ hcon with h1 | h2 | ⟨n1, n2, hsplit, hn1, hn2, hsuf, hpre⟩
  · revert h1
    decide
  · rcases contains_append_split _ _ _ h2 with h2a | h2b | ⟨n1, n2, hsplit, hn1, hn2, hsuf, hpre⟩
    · rw [listContainsSub_iff] at h2a
      obtain ⟨pre, post, hD⟩ := h2a
      have hn : 'n' ∈ (Nat.repr k).data.map Char.toLower := by
        rw [hD]
        simp
      exact null_digit_absurd 'n' (by decide) (mem_digits_of_mem_mapD k 'n' hn)
    · revert h2b
      decide
    · cases n1 with
      | nil => exact hn1 rfl
      | cons c t =>
        obtain ⟨pre2, hp⟩ := hsuf
        have hcmem : c ∈ (Nat.repr k).data.map Char.toLower := by
          rw [← hp]
          exact List.mem_append_right pre2 (List.mem_cons_self c t)
        have hcnull : c ∈ (c :: t) ++ n2 := List.mem_append_left n2 (List.mem_cons_self c t)
        exact null_digit_absurd c (by rw [hsplit]; exact hcnull) (mem_digits_of_mem_mapD k c hcmem)
  · cases n2 with
    | nil => exact hn2 rfl
    | cons c t =>
      obtain ⟨d, D2, hD2⟩ := List.exists_cons_of_ne_nil hDne
      rw [hD2] at hpre
      obtain ⟨post, hp⟩ := hpre
      simp only [List.cons_append] at hp
      have hcd : c = d := (List.cons_eq_cons.mp hp).1
      have hdm : d ∈ (Nat.repr k).data.map Char.toLower := by
        rw [hD2]
        exact List.mem_cons_self d D2
      subst hcd
      have hcnull : c ∈ n1 ++ (c :: t) := List.mem_append_right n1 (List.mem_cons_self c t)
      exact null_digit_absurd c (by rw [hsplit]; exact hcnull) (mem_digits_of_mem_mapD k c hdm)

/-! ## Helper lemmas: vector-search post-processing -/

theorem foldl_search_eq_join (t : Rat) : ∀ (l : List Hit) (acc : String),
    l.foldl (fun result hit => if hit.distance < t then result ++ hit.text ++ "\n" else result) acc
      = acc ++ String.join ((l.filter fun h => decide (h.distance < t)).map fun h => h.text ++ "\n")
  | [], acc => by
    apply String.ext
    simp [String.join]
  | h :: l, acc => by
    by_cases hc : h.distance < t
    · simp only [List.foldl_cons, if_pos hc, foldl_search_eq_join t l, List.filter_cons,
        decide_eq_true hc, List.map_cons]
      apply String.ext
      simp [List.append_assoc]
    · simp only [List.foldl_cons, if_neg hc, foldl_search_eq_join t l, List.filter_cons,
        decide_eq_false hc, List.map_cons]
      simp

theorem search_result_eq_specification (hits : List Hit) (threshold : Rat) :
    MilvusDB.search_result hits threshold = search_result_specification hits threshold := by
  unfold MilvusDB.search_result search_result_specification
  rw [foldl_search_eq_join]
  apply String.ext
  simp

/-! ## Helper lemmas: the handler branches -/

theorem handle_chat_length_branch {Vec : Type} (svc : ChatServices Vec)
    (conversation : List MessageDTO) (human_message : MessageDTO) (count : Nat)
    (h : conversation.length > messages_limit) :
    ChatHandler.handle_chat svc conversation human_message count =
      (Except.ok { system_message := none, ai_message := limit_length_message,
                   off_topic_response_count := count }, []) := by
  simp only [ChatHandler.handle_chat, if_pos h]

theorem handle_chat_exhausted_branch {Vec : Type} (svc : ChatServices Vec)
    (conversation : List MessageDTO) (human_message : MessageDTO) (count : Nat)
    (hlen : conversation.length ≤ messages_limit) (hcount : off_topic_count_limit ≤ count) :
    ChatHandler.handle_chat svc conversation human_message count =
      (Except.ok { system_message := none, ai_message := limit_out_of_topic_message,
                   off_topic_response_count := count }, []) := by
  simp only [ChatHandler.handle_chat, if_neg (by omega : ¬conversation.length > messages_limit),
    if_neg (by omega : ¬count < off_topic_count_limit)]

theorem handle_chat_refusal_branch {Vec : Type} (svc : ChatServices Vec)
    (conversation : List MessageDTO) (human_message : MessageDTO) (count : Nat)
    (formatted : List BaseMessage)
    (hlen : conversation.length ≤ messages_limit) (hcount : count < off_topic_count_limit)
    (hfmt : ChatHandler.update_conversation conversation human_message
      (ChatHandler.rag_system_message svc human_message) = Except.ok formatted)
    (hnull : containsNullCI (svc.invoke formatted) = true) :
    ChatHandler.handle_chat svc conversation human_message count =
      (Except.ok { system_message := some (ChatHandler.rag_system_message svc human_message),
                   ai_message := off_topic_response (count + 1),
                   off_topic_response_count := count + 1 },
       [CallEvent.embedCall (Embedding.text human_message.message_text),
        CallEvent.searchCall vdb_collection_name
          (svc.embed_query (Embedding.text human_message.message_text)) vdb_topk vdb_threshold,
        CallEvent.generateCall formatted]) := by
  simp only [ChatHandler.rag_system_message] at hfmt
  simp only [ChatHandler.handle_chat, if_neg (by omega : ¬conversation.length > messages_limit),
    if_pos hcount, hfmt, hnull, if_pos rfl]
  rfl

theorem handle_chat_pass_branch {Vec : Type} (svc : ChatServices Vec)
    (conversation : List MessageDTO) (human_message : MessageDTO) (count : Nat)
    (formatted : List BaseMessage)
    (hlen : conversation.length ≤ messages_limit) (hcount : count < off_topic_count_limit)
    (hfmt : ChatHandler.update_conversation conversation human_message
      (ChatHandler.rag_system_message svc human_message) = Except.ok formatted)
    (hnull : containsNullCI (svc.invoke formatted) = false) :
    ChatHandler.handle_chat svc conversation human_message count =
      (Except.ok { system_message := some (ChatHandler.rag_system_message svc human_message),
                   ai_message := svc.invoke formatted,
                   off_topic_response_count := count },
       [CallEvent.embedCall (Embedding.text human_message.message_text),
        CallEvent.searchCall vdb_collection_name
          (svc.embed_query (Embedding.text human_message.message_text)) vdb_topk vdb_threshold,
        CallEvent.generateCall formatted]) := by
  simp only [ChatHandler.rag_system_message] at hfmt
  simp only [ChatHandler.handle_chat, if_neg (by omega : ¬conversation.length > messages_limit),
    if_pos hcount, hfmt, hnull]
  rfl

theorem handle_chat_error_branch {Vec : Type} (svc : ChatServices Vec)
    (conversation : List MessageDTO) (human_message : MessageDTO) (count : Nat) (e : String)
    (hlen : conversation.length ≤ messages_limit) (hcount : count < off_topic_count_limit)
    (hfmt : ChatHandler.update_conversation conversation human_message
      (ChatHandler.rag_system_message svc human_message) = Except.error e) :
    ChatHandler.handle_chat svc conversation human_message count =
      (Except.error e,
       [CallEvent.embedCall (Embedding.text human_message.message_text),
        CallEvent.searchCall vdb_collection_name
          (svc.embed_query (Embedding.text human_message.message_text)) vdb_topk vdb_threshold]) := by
  simp only [ChatHandler.rag_system_message] at hfmt
  simp only [ChatHandler.handle_chat, if_neg (by omega : ¬conversation.length > messages_limit),
    if_pos hcount, hfmt]

theorem format_conversation_append (l1 l2 : List MessageDTO) (b1 b2 : List BaseMessage)
    (h1 : ChatHandler.format_conversation l1 = Except.ok b1)
    (h2 : ChatHandler.format_conversation l2 = Except.ok b2) :
    ChatHandler.format_conversation (l1 ++ l2) = Except.ok (b1 ++ b2) := by
  induction l1 generalizing b1 with
  | nil =>
    simp only [ChatHandler.format_conversation, Except.ok.injEq] at h1
    subst h1
    simpa using h2
  | cons m rest ih =>
    simp only [ChatHandler.format_conversation] at h1 ⊢
    cases hm : ChatHandler.format_message m with
    | error e =>
      rw [hm] at h1
      exact absurd h1 (by simp)
    | ok b =>
      rw [hm] at h1
      cases hr : ChatHandler.format_conversation rest with
      | error e =>
        rw [hr] at h1
        exact absurd h1 (by simp)
      | ok bs =>
        rw [hr] at h1
        simp only [Except.ok.injEq] at h1
        subst h1
        simp [ih bs hr]

theorem update_conversation_eq (conversation : List MessageDTO) (human_message : MessageDTO)
    (s : String) (fmts : List BaseMessage) (fh : BaseMessage)
    (hfc : ChatHandler.format_conversation conversation = Except.ok fmts)
    (hfh : ChatHandler.format_message human_message = Except.ok fh) :
    ChatHandler.update_conversation conversation human_message s =
      Except.ok (fmts ++ [fh] ++ [BaseMessage.systemMessage s]) := by
  have hsingle : ChatHandler.format_conversation [human_message] = Except.ok [fh] := by
    simp only [ChatHandler.format_conversation, hfh]
  have hall := format_conversation_append conversation [human_message] fmts [fh] hfc hsingle
  simp only [ChatHandler.update_conversation, hall]

/-! ## Claim theorems -/

/-- C1: on the retrieve-and-generate path (history length at most 30,
counter below 3), when the generation output contains the sentinel
case-insensitively, the handler returns the counter incremented by exactly
one, the templated warning interpolating the new counter value as the AI
text (which can never equal the raw generation output), and the system
prompt built from the retrieved context alongside. -/
theorem handle_chat_refusal_increment {Vec : Type} (svc : ChatServices Vec)
    (conversation : List MessageDTO) (human_message : MessageDTO) (count : Nat)
    (formatted : List BaseMessage)
    (hlen : conversation.length ≤ messages_limit) (hcount : count < off_topic_count_limit)
    (hfmt : ChatHandler.update_conversation conversation human_message
      (ChatHandler.rag_system_message svc human_message) = Except.ok formatted)
    (hnull : containsNullCI (svc.invoke formatted) = true) :
    ChatHandler.handle_chat svc conversation human_message count =
      (Except.ok { system_message := some (ChatHandler.rag_system_message svc human_message),
                   ai_message := off_topic_response (count + 1),
                   off_topic_response_count := count + 1 },
       [CallEvent.embedCall (Embedding.text human_message.message_text),
        CallEvent.searchCall vdb_collection_name
          (svc.embed_query (Embedding.text human_message.message_text)) vdb_topk vdb_threshold,
        CallEvent.generateCall formatted])
    ∧ off_topic_response (count + 1) ≠ svc.invoke formatted := by
  refine ⟨handle_chat_refusal_branch svc conversation human_message count formatted
    hlen hcount hfmt hnull, fun heq => ?_⟩
  have hfalse := containsNullCI_off_topic_response (count + 1)
  rw [heq, hnull] at hfalse
  exact Bool.noConfusion hfalse

/-- C1 witness: a concrete refusal turn with empty history and counter 0. -/
theorem handle_chat_refusal_increment_witness :
    ([] : List MessageDTO).length ≤ messages_limit ∧ 0 < off_topic_count_limit ∧
    ChatHandler.update_conversation [] witness_human_message
      (ChatHandler.rag_system_message refusal_services witness_human_message) =
        Except.ok witness_refusal_formatted ∧
    containsNullCI (refusal_services.invoke witness_refusal_formatted) = true ∧
    (ChatHandler.handle_chat refusal_services [] witness_human_message 0 =
      (Except.ok { system_message :=
                     some (ChatHandler.rag_system_message refusal_services witness_human_message),
                   ai_message := off_topic_response 1, off_topic_response_count := 1 },
       [CallEvent.embedCall (Embedding.text witness_human_message.message_text),
        CallEvent.searchCall vdb_collection_name
          (refusal_services.embed_query (Embedding.text witness_human_message.message_text))
          vdb_topk vdb_threshold,
        CallEvent.generateCall witness_refusal_formatted])
      ∧ off_topic_response 1 ≠ refusal_services.invoke witness_refusal_formatted) :=
  ⟨by decide, by decide, by rfl, by decide,
   handle_chat_refusal_increment refusal_services [] witness_human_message 0
     witness_refusal_formatted (by decide) (by decide) (by rfl) (by decide)⟩

/-- C2: when the history holds more than 30 messages the handler returns
the fixed length-limit message, no system message, the counter unchanged,
and makes no external calls. -/
theorem handle_chat_length_limit {Vec : Type} (svc : ChatServices Vec)
    (conversation : List MessageDTO) (human_message : MessageDTO) (count : Nat)
    (h : conversation.length > messages_limit) :
    ChatHandler.handle_chat svc conversation human_message count =
      (Except.ok { system_message := none, ai_message := limit_length_message,
                   off_topic_response_count := count }, []) :=
  handle_chat_length_branch svc conversation human_message count h

/-- C2 witness: a 31-message history with counter 2. -/
theorem handle_chat_length_limit_witness :
    (List.replicate 31 witness_human_message).length > messages_limit ∧
    ChatHandler.handle_chat empty_output_services (List.replicate 31 witness_human_message)
        witness_human_message 2 =
      (Except.ok { system_message := none, ai_message := limit_length_message,
                   off_topic_response_count := 2 }, []) :=
  ⟨by decide, handle_chat_length_limit empty_output_services
    (List.replicate 31 witness_human_message) witness_human_message 2 (by decide)⟩

/-- C3: when the off-topic counter is at least 3 and the history length is
at most 30, the handler returns the fixed off-topic-exhausted message, no
system message, the counter unchanged, and makes no external calls. -/
theorem handle_chat_off_topic_exhausted {Vec : Type} (svc : ChatServices Vec)
    (conversation : List MessageDTO) (human_message : MessageDTO) (count : Nat)
    (hlen : conversation.length ≤ messages_limit) (hcount : off_topic_count_limit ≤ count) :
    ChatHandler.handle_chat svc conversation human_message count =
      (Except.ok { system_message := none, ai_message := limit_out_of_topic_message,
                   off_topic_response_count := count }, []) :=
  handle_chat_exhausted_branch svc conversation human_message count hlen hcount

/-- C3 witness: empty history with counter 3. -/
theorem handle_chat_off_topic_exhausted_witness :
    ([] : List MessageDTO).length ≤ messages_limit ∧ off_topic_count_limit ≤ 3 ∧
    ChatHandler.handle_chat empty_output_services [] witness_human_message 3 =
      (Except.ok { system_message := none, ai_message := limit_out_of_topic_message,
                   off_topic_response_count := 3 }, []) :=
  ⟨by decide, by decide, handle_chat_off_topic_exhausted empty_output_services []
    witness_human_message 3 (by decide) (by decide)⟩

/-- C4: on the retrieve-and-generate path, when the generation output does
not contain the sentinel, the AI text is the generation output verbatim and
the counter is unchanged; moreover an empty generation output is not a
refusal. -/
theorem handle_chat_non_refusal_pass_through {Vec : Type} (svc : ChatServices Vec)
    (conversation : List MessageDTO) (human_message : MessageDTO) (count : Nat)
    (formatted : List BaseMessage)
    (hlen : conversation.length ≤ messages_limit) (hcount : count < off_topic_count_limit)
    (hfmt : ChatHandler.update_conversation conversation human_message
      (ChatHandler.rag_system_message svc human_message) = Except.ok formatted)
    (hnull : containsNullCI (svc.invoke formatted) = false) :
    ChatHandler.handle_chat svc conversation human_message count =
      (Except.ok { system_message := some (ChatHandler.rag_system_message svc human_message),
                   ai_message := svc.invoke formatted,
                   off_topic_response_count := count },
       [CallEvent.embedCall (Embedding.text human_message.message_text),
        CallEvent.searchCall vdb_collection_name
          (svc.embed_query (Embedding.text human_message.message_text)) vdb_topk vdb_threshold,
        CallEvent.generateCall formatted])
    ∧ containsNullCI "" = false :=
  ⟨handle_chat_pass_branch svc conversation human_message count formatted
    hlen hcount hfmt hnull, rfl⟩

/-- C4 witness: a concrete turn whose generation output is the empty
string, returned verbatim as the AI text with the counter unchanged. -/
theorem handle_chat_non_refusal_pass_through_witness :
    ([] : List MessageDTO).length ≤ messages_limit ∧ 0 < off_topic_count_limit ∧
    ChatHandler.update_conversation [] witness_human_message
      (ChatHandler.rag_system_message empty_output_services witness_human_message) =
        Except.ok witness_pass_formatted ∧
    containsNullCI (empty_output_services.invoke witness_pass_formatted) = false ∧
    (ChatHandler.handle_chat empty_output_services [] witness_human_message 0 =
      (Except.ok { system_message :=
                     some (ChatHandler.rag_system_message empty_output_services witness_human_message),
                   ai_message := empty_output_services.invoke witness_pass_formatted,
                   off_topic_response_count := 0 },
       [CallEvent.embedCall (Embedding.text witness_human_message.message_text),
        CallEvent.searchCall vdb_collection_name
          (empty_output_services.embed_query (Embedding.text witness_human_message.message_text))
          vdb_topk vdb_threshold,
        CallEvent.generateCall witness_pass_formatted])
      ∧ containsNullCI "" = false) :=
  ⟨by decide, by decide, by rfl, by rfl,
   handle_chat_non_refusal_pass_through empty_output_services [] witness_human_message 0
     witness_pass_formatted (by decide) (by decide) (by rfl) (by rfl)⟩

/-- C5 counterexample: at the concrete example of the claim (texts c, a, b
with respective distances 0.9, 0.2 and 1.6, threshold 1.7) the code
assembles the context string a-c-b, not the claimed a-b-c. -/
theorem milvus_search_claim_example_false :
    MilvusDB.search_result [⟨0.9, "c"⟩, ⟨0.2, "a"⟩, ⟨1.6, "b"⟩] 1.7 = "a\nc\nb\n" ∧
    MilvusDB.search_result [⟨0.9, "c"⟩, ⟨0.2, "a"⟩, ⟨1.6, "b"⟩] 1.7 ≠ "a\nb\nc\n" := by
  have h : MilvusDB.search_result [⟨0.9, "c"⟩, ⟨0.2, "a"⟩, ⟨1.6, "b"⟩] 1.7 = "a\nc\nb\n" := by
    norm_num [MilvusDB.search_result, List.insertionSort, List.orderedInsert, hitLe]
    rfl
  refine ⟨h, ?_⟩
  rw [h]
  decide

/-- C5 (amended): MilvusDB.search sorts the hits ascending by distance,
keeps exactly those strictly below the threshold (a hit at the threshold is
excluded), and concatenates the surviving texts each followed by a newline;
for texts c, a, b with respective distances 0.9, 0.2, 1.6 and threshold 1.7
the result is a-c-b, an at-threshold hit is dropped, and an empty surviving
set yields the empty string. -/
theorem milvus_search_sorted_filtered_concatenated :
    (∀ (hits : List Hit) (threshold : Rat),
        MilvusDB.search_result hits threshold = search_result_specification hits threshold
        ∧ List.Sorted hitLe (List.insertionSort hitLe hits)
        ∧ List.Perm (List.insertionSort hitLe hits) hits)
    ∧ MilvusDB.search_result [⟨0.9, "c"⟩, ⟨0.2, "a"⟩, ⟨1.6, "b"⟩] 1.7 = "a\nc\nb\n"
    ∧ MilvusDB.search_result [⟨0.9, "c"⟩, ⟨0.2, "a"⟩, ⟨1.7, "b"⟩] 1.7 = "a\nc\n"
    ∧ MilvusDB.search_result [] 1.7 = "" := by
  refine ⟨fun hits threshold => ⟨search_result_eq_specification hits threshold,
    List.sorted_insertionSort hitLe hits, List.perm_insertionSort hitLe hits⟩, ?_, ?_, rfl⟩
  · norm_num [MilvusDB.search_result, List.insertionSort, List.orderedInsert, hitLe]
    rfl
  · norm_num [MilvusDB.search_result, List.insertionSort, List.orderedInsert, hitLe]
    rfl

/-- C6: whenever the handler returns a result, the returned counter equals
the input counter or the input counter plus exactly one, and it is the
latter only when a generation call was made in this turn and its output
contained the sentinel. -/
theorem handle_chat_counter_step {Vec : Type} (svc : ChatServices Vec)
    (conversation : List MessageDTO) (human_message : MessageDTO) (count : Nat)
    (r : ChatResult) (tr : List (CallEvent Vec))
    (heq : ChatHandler.handle_chat svc conversation human_message count = (Except.ok r, tr)) :
    (r.off_topic_response_count = count ∨ r.off_topic_response_count = count + 1) ∧
      (r.off_topic_response_count = count + 1 →
        ∃ msgs, CallEvent.generateCall msgs ∈ tr ∧ containsNullCI (svc.invoke msgs) = true) := by
  by_cases hlen : conversation.length > messages_limit
  · rw [handle_chat_length_branch svc conversation human_message count hlen] at heq
    simp only [Prod.mk.injEq, Except.ok.injEq] at heq
    obtain ⟨hr, htr⟩ := heq
    rw [← hr]
    exact ⟨Or.inl rfl, fun h => absurd h (Nat.ne_of_lt (Nat.lt_succ_self count))⟩
  · have hlen2 : conversation.length ≤ messages_limit := by omega
    by_cases hcount : count < off_topic_count_limit
    · cases hfmt : ChatHandler.update_conversation conversation human_message
        (ChatHandler.rag_system_message svc human_message) with
      | error e =>
        rw [handle_chat_error_branch svc conversation human_message count e hlen2 hcount hfmt]
          at heq
        simp at heq
      | ok formatted =>
        by_cases hnull : containsNullCI (svc.invoke formatted) = true
        · rw [handle_chat_refusal_branch svc conversation human_message count formatted
            hlen2 hcount hfmt hnull] at heq
          simp only [Prod.mk.injEq, Except.ok.injEq] at heq
          obtain ⟨hr, htr⟩ := heq
          rw [← hr]
          refine ⟨Or.inr rfl, fun _ => ⟨formatted, ?_, hnull⟩⟩
          rw [← htr]
          simp
        · have hnull2 : containsNullCI (svc.invoke formatted) = false := by
            simpa using hnull
          rw [handle_chat_pass_branch svc conversation human_message count formatted
            hlen2 hcount hfmt hnull2] at heq
          simp only [Prod.mk.injEq, Except.ok.injEq] at heq
          obtain ⟨hr, htr⟩ := heq
          rw [← hr]
          exact ⟨Or.inl rfl, fun h => absurd h (Nat.ne_of_lt (Nat.lt_succ_self count))⟩
    · rw [handle_chat_exhausted_branch svc conversation human_message count hlen2 (by omega)]
        at heq
      simp only [Prod.mk.injEq, Except.ok.injEq] at heq
      obtain ⟨hr, htr⟩ := heq
      rw [← hr]
      exact ⟨Or.inl rfl, fun h => absurd h (Nat.ne_of_lt (Nat.lt_succ_self count))⟩

/-- C6 witness: the refusal run increments the counter from 0 to 1 and the
trace contains the generation call that produced the sentinel. -/
theorem handle_chat_counter_step_witness :
    ChatHandler.handle_chat refusal_services [] witness_human_message 0 =
      (Except.ok witness_refusal_result, witness_refusal_trace) ∧
    ((witness_refusal_result.off_topic_response_count = 0 ∨
        witness_refusal_result.off_topic_response_count = 0 + 1) ∧
      (witness_refusal_result.off_topic_response_count = 0 + 1 →
        ∃ msgs, CallEvent.generateCall msgs ∈ witness_refusal_trace ∧
          containsNullCI (refusal_services.invoke msgs) = true)) :=
  ⟨by rfl, handle_chat_counter_step refusal_services [] witness_human_message 0
    witness_refusal_result witness_refusal_trace (by rfl)⟩

/-- C7: on the retrieve-and-generate path the message list handed to the
generation service is exactly the prior history formatted by role in its
original order, then the new human message, then the newly built
context-bearing system prompt as the final element. -/
theorem handle_chat_generation_list {Vec : Type} (svc : ChatServices Vec)
    (conversation : List MessageDTO) (human_message : MessageDTO) (count : Nat)
    (fmts : List BaseMessage) (fh : BaseMessage)
    (hlen : conversation.length ≤ messages_limit) (hcount : count < off_topic_count_limit)
    (hfc : ChatHandler.format_conversation conversation = Except.ok fmts)
    (hfh : ChatHandler.format_message human_message = Except.ok fh) :
    (ChatHandler.handle_chat svc conversation human_message count).2 =
      [CallEvent.embedCall (Embedding.text human_message.message_text),
       CallEvent.searchCall vdb_collection_name
         (svc.embed_query (Embedding.text human_message.message_text)) vdb_topk vdb_threshold,
       CallEvent.generateCall (fmts ++ [fh] ++
         [BaseMessage.systemMessage (ChatHandler.rag_system_message svc human_message)])] := by
  have hfmt := update_conversation_eq conversation human_message
    (ChatHandler.rag_system_message svc human_message) fmts fh hfc hfh
  by_cases hnull : containsNullCI (svc.invoke (fmts ++ [fh] ++
      [BaseMessage.systemMessage (ChatHandler.rag_system_message svc human_message)])) = true
  · rw [handle_chat_refusal_branch svc conversation human_message count _ hlen hcount hfmt hnull]
  · rw [handle_chat_pass_branch svc conversation human_message count _ hlen hcount hfmt
      (eq_false_of_ne_true hnull)]

/-- C7 witness: a single human turn with empty history. -/
theorem handle_chat_generation_list_witness :
    ChatHandler.format_conversation [] = Except.ok [] ∧
    ChatHandler.format_message witness_human_message =
      Except.ok (BaseMessage.humanMessage "hi") ∧
    (ChatHandler.handle_chat refusal_services [] witness_human_message 0).2 =
      [CallEvent.embedCall (Embedding.text witness_human_message.message_text),
       CallEvent.searchCall vdb_collection_name
         (refusal_services.embed_query (Embedding.text witness_human_message.message_text))
         vdb_topk vdb_threshold,
       CallEvent.generateCall ([] ++ [BaseMessage.humanMessage "hi"] ++
         [BaseMessage.systemMessage
           (ChatHandler.rag_system_message refusal_services witness_human_message)])] :=
  ⟨rfl, by rfl, handle_chat_generation_list refusal_services [] witness_human_message 0 []
    (BaseMessage.humanMessage "hi") (by decide) (by decide) rfl (by rfl)⟩

/-- C8: the role mapping is a bijection over the three known origin tags:
formatting succeeds on each and parsing the role representation recovers
the tag, every role representation arises from a formatted message, and any
tag outside the three raises the input-state error. -/
theorem format_message_role_bijection :
    (∀ m : MessageDTO,
        (m.message_by = MessageBy.HUMAN ∨ m.message_by = MessageBy.AI ∨
          m.message_by = MessageBy.SYSTEM) →
        ∃ b, ChatHandler.format_message m = Except.ok b ∧ parse_message_by b = m.message_by)
    ∧ (∀ b : BaseMessage, ∃ m : MessageDTO,
        ChatHandler.format_message m = Except.ok b ∧ m.message_by = parse_message_by b)
    ∧ (∀ m : MessageDTO,
        ¬(m.message_by = MessageBy.HUMAN ∨ m.message_by = MessageBy.AI ∨
          m.message_by = MessageBy.SYSTEM) →
        ChatHandler.format_message m =
          Except.error ("Unexpected message_by value: " ++ m.message_by)) := by
  refine ⟨?_, ?_, ?_⟩
  · intro m h
    rcases h with h | h | h
    · exact ⟨BaseMessage.humanMessage m.message_text,
        by simp [ChatHandler.format_message, h, MessageBy.HUMAN, MessageBy.AI, MessageBy.SYSTEM],
        by simp [parse_message_by, h]⟩
    · exact ⟨BaseMessage.aiMessage m.message_text,
        by simp [ChatHandler.format_message, h, MessageBy.HUMAN, MessageBy.AI, MessageBy.SYSTEM],
        by simp [parse_message_by, h]⟩
    · exact ⟨BaseMessage.systemMessage m.message_text,
        by simp [ChatHandler.format_message, h, MessageBy.HUMAN, MessageBy.AI, MessageBy.SYSTEM],
        by simp [parse_message_by, h]⟩
  · intro b
    cases b with
    | humanMessage content =>
      exact ⟨{ message_id := "", chat_id := "", message_text := content,
               message_by := MessageBy.HUMAN, created_at := 0 },
        by simp [ChatHandler.format_message, MessageBy.HUMAN, MessageBy.AI, MessageBy.SYSTEM],
        rfl⟩
    | aiMessage content =>
      exact ⟨{ message_id := "", chat_id := "", message_text := content,
               message_by := MessageBy.AI, created_at := 0 },
        by simp [ChatHandler.format_message, MessageBy.HUMAN, MessageBy.AI, MessageBy.SYSTEM],
        rfl⟩
    | systemMessage content =>
      exact ⟨{ message_id := "", chat_id := "", message_text := content,
               message_by := MessageBy.SYSTEM, created_at := 0 },
        by simp [ChatHandler.format_message, MessageBy.HUMAN, MessageBy.AI, MessageBy.SYSTEM],
        rfl⟩
  · intro m h
    push_neg at h
    obtain ⟨h1, h2, h3⟩ := h
    simp only [ChatHandler.format_message, if_neg h1, if_neg h2, if_neg h3]

/-- C8 witness: a human-tagged message round-trips, and a robot-tagged
message raises the input-state error. -/
theorem format_message_role_bijection_witness :
    (∃ b, ChatHandler.format_message witness_human_message = Except.ok b ∧
        parse_message_by b = witness_human_message.message_by) ∧
    ChatHandler.format_message witness_robot_message =
      Except.error ("Unexpected message_by value: " ++ witness_robot_message.message_by) :=
  ⟨format_message_role_bijection.1 witness_human_message (Or.inl rfl),
   format_message_role_bijection.2.2 witness_robot_message (by decide)⟩

/-- C9: on the retrieve-and-generate path the text handed to the embedding
service is the human message text with every newline character replaced by
a space and no other change, and the embed and search calls happen for
every such input, the empty string included. -/
theorem handle_chat_embeds_normalized_text {Vec : Type} (svc : ChatServices Vec)
    (conversation : List MessageDTO) (human_message : MessageDTO) (count : Nat)
    (hlen : conversation.length ≤ messages_limit) (hcount : count < off_topic_count_limit) :
    ∃ rest, (ChatHandler.handle_chat svc conversation human_message count).2 =
      CallEvent.embedCall
          (String.mk (human_message.message_text.data.map fun c => if c = '\n' then ' ' else c)) ::
        CallEvent.searchCall vdb_collection_name
          (svc.embed_query (Embedding.text human_message.message_text)) vdb_topk vdb_threshold ::
        rest := by
  cases hfmt : ChatHandler.update_conversation conversation human_message
      (ChatHandler.rag_system_message svc human_message) with
  | error e =>
    refine ⟨[], ?_⟩
    rw [handle_chat_error_branch svc conversation human_message count e hlen hcount hfmt]
    rfl
  | ok formatted =>
    refine ⟨[CallEvent.generateCall formatted], ?_⟩
    by_cases hnull : containsNullCI (svc.invoke formatted) = true
    · rw [handle_chat_refusal_branch svc conversation human_message count formatted
        hlen hcount hfmt hnull]
      rfl
    · rw [handle_chat_pass_branch svc conversation human_message count formatted
        hlen hcount hfmt (eq_false_of_ne_true hnull)]
      rfl

/-- C9 witness: the empty human message is still embedded and searched. -/
theorem handle_chat_embeds_normalized_text_witness :
    ([] : List MessageDTO).length ≤ messages_limit ∧ 0 < off_topic_count_limit ∧
    ∃ rest, (ChatHandler.handle_chat empty_output_services [] witness_empty_message 0).2 =
      CallEvent.embedCall
          (String.mk (witness_empty_message.message_text.data.map
            fun c => if c = '\n' then ' ' else c)) ::
        CallEvent.searchCall vdb_collection_name
          (empty_output_services.embed_query (Embedding.text witness_empty_message.message_text))
          vdb_topk vdb_threshold ::
        rest :=
  ⟨by decide, by decide, handle_chat_embeds_normalized_text empty_output_services []
    witness_empty_message 0 (by decide) (by decide)⟩

/-- C10: pydantic construction leaves message_text verbatim for every
input and every origin tag, because message_by is validated after
message_text and the validator condition consults only previously
validated fields; the substitution branch itself is non-trivial (it would
rewrite the text if it could fire), but with no message_by in the data it
never does. -/
theorem message_dto_text_verbatim :
    (∀ (message_id chat_id message_text message_by : String) (created_at : Nat),
        (MessageDTO.model_validate message_id chat_id message_text message_by
          created_at).message_text = message_text)
    ∧ MessageDTO.replace_pronouns "does he work" { message_by := some "human" } = "does Hani work"
    ∧ MessageDTO.replace_pronouns "does he work" { message_by := none } = "does he work" :=
  ⟨fun _ _ _ _ _ => rfl, by decide, rfl⟩

end PortfolioBackend
